import Mathlib

/-!
Shallow embedding of the Ticketing-System Flask application
(src/app.py, src/models.py) for checking its specification.

Timestamps are modelled as integers: seconds of naive local wall-clock
time (the application stores naive Pakistan local time).  Each request
handler becomes a pure function taking the authenticated principal, the
looked-up ticket (an `Option Ticket`, `none` when the id does not
exist, mirroring `Ticket.query.get_or_404`), the submitted form data
and the current time, and returning `Except ActionError outcome`.
An `error` result models the handler aborting (flash + redirect) before
any `db.session.commit()`, so the stored row is unchanged.
-/

namespace TicketingSystem

/-- Seconds in `n` hours (models `timedelta(hours=n)`). -/
def hoursSec (n : Int) : Int := n * 3600

/-- Seconds in `n` days (models `timedelta(days=n)`). -/
def daysSec (n : Int) : Int := n * 86400

/-- Attachment extension allow-list, app.py line 20. -/
def ALLOWED_EXTENSIONS : List String :=
  ["pdf", "png", "jpg", "jpeg", "doc", "docx", "xls", "xlsx"]

/-- Characters removed by Python `str.strip()` (ASCII whitespace). -/
def pyIsSpace (c : Char) : Bool :=
  c = ' ' || c = '\t' || c = '\n' || c = '\r' || c = Char.ofNat 11 || c = Char.ofNat 12

/-- Python `s.strip()`: drop leading and trailing whitespace. -/
def pyStrip (s : String) : String :=
  String.mk (((s.toList.dropWhile pyIsSpace).reverse.dropWhile pyIsSpace).reverse)

/-- Python `s.lower()` restricted to ASCII, which is all the code compares:
lowercase each character. -/
def lowerString (s : String) : String := String.mk (s.toList.map Char.toLower)

/-- The part of `s` after its last dot: `s.rsplit(".", 1)[1]` when a dot occurs. -/
def extAfterLastDot (s : String) : String :=
  String.mk ((s.toList.reverse.takeWhile (fun c => c ≠ '.')).reverse)

/-- Function `allowed_file` (app.py lines 58-60): the name has a dot and the lowercased
part after the last dot is in the allow-list. -/
def allowed_file (filename : String) : Bool :=
  filename.toList.contains '.' &&
    ALLOWED_EXTENSIONS.contains (lowerString (extAfterLastDot filename))

/-- Function `calculate_due_time` (app.py lines 62-70), with the current time passed
explicitly instead of read from the clock.  Used only by the reopen path. -/
def calculate_due_time (priority : String) (now : Int) : Int :=
  if priority = "Urgent" then now + hoursSec 2
  else if priority = "7 Days" then now + daysSec 7
  else if priority = "15 Days" then now + daysSec 15
  else now + daysSec 7

/-- An authenticated principal: `current_user` restricted to the fields the
handlers consult (models.py User.id / User.role). -/
structure Principal where
  id : Nat
  role : String
deriving DecidableEq, Repr

/-- A ticket row (models.py lines 31-52).  `attachment_filename` is `none`
for a NULL column. -/
structure Ticket where
  id : Nat
  staff_id : Nat
  practice_name : String
  provider_name : String
  subject : String
  description : String
  priority : String
  status : String
  attachment_filename : Option String
  assigned_to : String
  created_at : Int
  updated_at : Int
  due_time : Int
deriving DecidableEq, Repr

/-- A comment row (models.py lines 60-70). -/
structure Comment where
  ticket_id : Nat
  user_id : Nat
  message : String
  created_at : Int
deriving DecidableEq, Repr

/-- The failure outcomes of the handlers, one constructor per distinct
flash-and-abort path in app.py. -/
inductive ActionError where
  | NotAuthorized
  | MissingField
  | InvalidAttachment
  | InvalidStatus
  | InvalidAction
  | EmptyMessage
  | NotFound
deriving DecidableEq, Repr

/-- The due-time computation inlined in `create_ticket` (app.py lines
269-274): Urgent gets 2 hours, "7 Days" gets 7 days, everything else gets
3 days. -/
def creationDue (priority : String) (created_at : Int) : Int :=
  if priority = "Urgent" then created_at + hoursSec 2
  else if priority = "7 Days" then created_at + daysSec 7
  else created_at + daysSec 3

/-- The attachment handling of `create_ticket` (app.py lines 277-286):
no part or an empty filename stores NULL; a named file is stored when its
extension is allow-listed and aborts the request otherwise. -/
def attachmentResult (attachment : Option String) :
    Except ActionError (Option String) :=
  match attachment with
  | some fn =>
    if fn ≠ "" then
      if allowed_file fn then .ok (some fn) else .error .InvalidAttachment
    else .ok none
  | none => .ok none

/-- Handler `create_ticket` (app.py lines 241-302, POST branch).  `attachment` is
`some fn` when the request carried a file part with filename `fn` (possibly
empty, as browsers send for an empty file input), `none` when no part was
sent.  `secure_filename` is external werkzeug code and is modelled as the
identity, since no claim depends on its sanitisation.  The notification
sends after the commit are outside the returned state. -/
def create_ticket (p : Principal)
    (practice_name provider_name subject_text description priority : String)
    (attachment : Option String) (now : Int) (tid : Nat) :
    Except ActionError Ticket :=
  if p.role ≠ "staff" then .error .NotAuthorized
  else if practice_name = "" ∨ provider_name = "" ∨ subject_text = "" ∨
      description = "" ∨ priority = "" then .error .MissingField
  else
    match attachmentResult attachment with
    | .error e => .error e
    | .ok filename =>
      .ok { id := tid
            staff_id := p.id
            practice_name := practice_name
            provider_name := provider_name
            subject := subject_text
            description := description
            priority := priority
            status := "Open"
            attachment_filename := filename
            assigned_to := ""
            created_at := now
            updated_at := now
            due_time := creationDue priority now }

/-- Handler `admin_update_status` (app.py lines 377-407). -/
def admin_update_status (p : Principal) (found : Option Ticket)
    (new_status : String) (now : Int) : Except ActionError Ticket :=
  if p.role ≠ "admin" then .error .NotAuthorized
  else
    match found with
    | none => .error .NotFound
    | some ticket =>
      if new_status ∉ (["Open", "In Progress", "Solved"] : List String) then
        .error .InvalidStatus
      else .ok { ticket with status := new_status, updated_at := now }

/-- Handler `view_ticket` (app.py lines 411-429).  The PKT display conversion of
`created_at` / `due_time` before rendering is presentation-only (never
committed) and is omitted. -/
def view_ticket (p : Principal) (found : Option Ticket) :
    Except ActionError Ticket :=
  match found with
  | none => .error .NotFound
  | some ticket =>
    if p.role = "staff" ∧ ticket.staff_id ≠ p.id then .error .NotAuthorized
    else .ok ticket

/-- Handler `add_comment` (app.py lines 449-468).  Note the handler checks only that
the trimmed message is non-empty: it performs no role or ownership check. -/
def add_comment (p : Principal) (found : Option Ticket) (message : String)
    (now : Int) : Except ActionError Comment :=
  match found with
  | none => .error .NotFound
  | some ticket =>
    let m := pyStrip message
    if m = "" then .error .EmptyMessage
    else .ok { ticket_id := ticket.id
               user_id := p.id
               message := m
               created_at := now }

/-- Handler `staff_action` (app.py lines 473-516). -/
def staff_action (p : Principal) (found : Option Ticket) (act : String)
    (now : Int) : Except ActionError Ticket :=
  match found with
  | none => .error .NotFound
  | some ticket =>
    if p.role ≠ "staff" ∨ ticket.staff_id ≠ p.id then .error .NotAuthorized
    else if act = "approve_close" ∧
        ticket.status ∈ (["Solved", "In Progress", "Open"] : List String) then
      .ok { ticket with status := "Closed", updated_at := now }
    else if act = "reopen" ∧
        ticket.status ∈ (["Solved", "Closed"] : List String) then
      .ok { ticket with
            status := "In Progress"
            due_time := calculate_due_time ticket.priority now
            updated_at := now }
    else .error .InvalidAction

/-- Handler `admin_update_assigned` (app.py lines 518-532). -/
def admin_update_assigned (p : Principal) (found : Option Ticket)
    (assigned_to : String) (now : Int) : Except ActionError Ticket :=
  if p.role ≠ "admin" then .error .NotAuthorized
  else
    match found with
    | none => .error .NotFound
    | some ticket =>
      .ok { ticket with assigned_to := pyStrip assigned_to, updated_at := now }

/-- The overdue test of `staff_dashboard` (app.py lines 222-225); the
`admin_dashboard` test (lines 361-364) is the identical expression.  Both
sides of the comparison are naive PKT wall-clock values. -/
def dashboardOverdue (t : Ticket) (now : Int) : Bool :=
  decide (t.due_time < now) &&
    decide (lowerString t.status ∉ (["closed", "approved"] : List String))

/-- The selection filter of `check_ticket_deadlines` (app.py lines 96-101):
exact-case status whitelist and a non-strict deadline comparison.  There
`now` is `datetime.utcnow()` although `due_time` is stored as PKT wall time;
here both are plain integers. -/
def schedulerSelects (t : Ticket) (now : Int) : Bool :=
  decide (t.status ∈ (["Open", "In Progress", "Solved"] : List String)) &&
    decide (t.due_time ≤ now)

/-- The overdue classification exactly as the spec words it (section 4.1):
status not in {Closed, Approved} case-insensitively, and due_time
strictly before now. -/
def specOverdue (t : Ticket) (now : Int) : Bool :=
  decide (lowerString t.status ∉ (["closed", "approved"] : List String)) &&
    decide (t.due_time < now)

/-- The creation offset table as the spec words it (section 4.1). -/
def specOffset (priority : String) : Int :=
  if priority = "Urgent" then hoursSec 2
  else if priority = "7 Days" then daysSec 7
  else daysSec 3

/-- The reopen offset table as amended from the code: Urgent gets 2 hours,
"7 Days" gets 7 days, "15 Days" gets 15 days, anything else 7 days. -/
def specAltOffset (priority : String) : Int :=
  if priority = "Urgent" then hoursSec 2
  else if priority = "7 Days" then daysSec 7
  else if priority = "15 Days" then daysSec 15
  else daysSec 7

/-- The stored row after a handler runs against the row `old`: the handlers
commit only on their success path, so an error leaves `old` in place. -/
def persistedAfter (old : Option Ticket) (r : Except ActionError Ticket) :
    Option Ticket :=
  match r with
  | .ok t => some t
  | .error _ => old

/-- A concrete ticket row used to instantiate universally quantified
theorems on closed inputs. -/
def baseTicket : Ticket :=
  { id := 1, staff_id := 1, practice_name := "p", provider_name := "q",
    subject := "s", description := "d", priority := "Urgent", status := "Open",
    attachment_filename := none, assigned_to := "", created_at := 0,
    updated_at := 0, due_time := 7200 }

/-! ## Helper lemmas -/

/-- Fields of a successfully created ticket: creation stamps `now`, starts
`Open`, and derives `due_time` by the creation offset table. -/
lemma creationDue_eq_specOffset (prio : String) (c : Int) :
    creationDue prio c = c + specOffset prio := by
  unfold creationDue specOffset
  split_ifs <;> rfl

lemma create_ticket_ok_fields (p : Principal)
    (a b c d prio : String) (att : Option String) (now : Int) (tid : Nat)
    (t : Ticket) (h : create_ticket p a b c d prio att now tid = .ok t) :
    t.created_at = now ∧ t.status = "Open" ∧
      t.due_time = now + specOffset prio := by
  unfold create_ticket at h
  split at h
  · exact Except.noConfusion h
  · split at h
    · exact Except.noConfusion h
    · split at h
      · exact Except.noConfusion h
      · injection h with h
        subst h
        exact ⟨rfl, rfl, creationDue_eq_specOffset prio now⟩

/-- Every creation offset is strictly positive. -/
lemma specOffset_pos (prio : String) : 0 < specOffset prio := by
  unfold specOffset hoursSec daysSec
  split_ifs <;> norm_num

/-! ## C3 -/

/-- C3: for every priority `p`, a ticket created at instant `created_at` has
`due_time = created_at + offset(p)`, where offset(Urgent) = 2 hours,
offset("7 Days") = 7 days, and every other priority value (including
"15 Days" and unrecognised strings) gets 3 days. -/
theorem create_due_time_eq_created_plus_offset (p : Principal)
    (a b c d prio : String) (att : Option String) (now : Int) (tid : Nat)
    (t : Ticket) (h : create_ticket p a b c d prio att now tid = .ok t) :
    t.due_time = t.created_at + specOffset prio := by
  obtain ⟨hc, _, hd⟩ := create_ticket_ok_fields p a b c d prio att now tid t h
  rw [hd, hc]

/-- Witness for C3 at a concrete creation: priority "15 Days" gets the
3-day default offset. -/
theorem create_due_time_eq_created_plus_offset_check :
    create_ticket ⟨1, "staff"⟩ "p" "q" "s" "d" "15 Days" none 0 1 =
      Except.ok { baseTicket with priority := "15 Days", due_time := daysSec 3 } ∧
    ({ baseTicket with priority := "15 Days", due_time := daysSec 3 } : Ticket).due_time =
      ({ baseTicket with priority := "15 Days", due_time := daysSec 3 } : Ticket).created_at +
        specOffset "15 Days" := by
  refine ⟨rfl, ?_⟩
  exact create_due_time_eq_created_plus_offset ⟨1, "staff"⟩ "p" "q" "s" "d"
    "15 Days" none 0 1 _ rfl

/-! ## C8 -/

/-- C8: a freshly created ticket is not overdue at its creation instant,
for every priority: the dashboard overdue predicate evaluated at
`now = created_at` is false, since every offset is strictly positive and
the comparison is strict. -/
theorem created_ticket_not_overdue (p : Principal)
    (a b c d prio : String) (att : Option String) (now : Int) (tid : Nat)
    (t : Ticket) (h : create_ticket p a b c d prio att now tid = .ok t) :
    dashboardOverdue t now = false := by
  obtain ⟨hc, hs, hd⟩ := create_ticket_ok_fields p a b c d prio att now tid t h
  have hpos := specOffset_pos prio
  simp only [dashboardOverdue, Bool.and_eq_false_iff, decide_eq_false_iff_not,
    not_lt, hd]
  left
  omega

/-- Witness for C8: the concrete "15 Days" creation at time 0 is not
overdue at time 0. -/
theorem created_ticket_not_overdue_check :
    create_ticket ⟨1, "staff"⟩ "p" "q" "s" "d" "15 Days" none 0 1 =
      Except.ok { baseTicket with priority := "15 Days", due_time := daysSec 3 } ∧
    dashboardOverdue { baseTicket with priority := "15 Days", due_time := daysSec 3 } 0 =
      false := by
  refine ⟨rfl, ?_⟩
  exact created_ticket_not_overdue ⟨1, "staff"⟩ "p" "q" "s" "d" "15 Days"
    none 0 1 _ rfl

/-! ## C7 -/

/-- C7: a create call by a staff principal with complete fields that supplies
an attachment whose lowercased extension (the part after the last dot) is
outside the allow-list fails with InvalidAttachment, and no ticket is
persisted. -/
theorem create_rejects_disallowed_extension (p : Principal)
    (a b c d prio fn : String) (now : Int) (tid : Nat)
    (hrole : p.role = "staff")
    (ha : a ≠ "") (hb : b ≠ "") (hc : c ≠ "") (hd : d ≠ "") (hp : prio ≠ "")
    (hfn : fn ≠ "")
    (hext : ALLOWED_EXTENSIONS.contains (lowerString (extAfterLastDot fn)) =
      false) :
    create_ticket p a b c d prio (some fn) now tid =
      Except.error ActionError.InvalidAttachment ∧
    persistedAfter none (create_ticket p a b c d prio (some fn) now tid) =
      none := by
  have hallow : allowed_file fn = false := by
    unfold allowed_file
    rw [hext, Bool.and_false]
  have hmain : create_ticket p a b c d prio (some fn) now tid =
      Except.error ActionError.InvalidAttachment := by
    simp [create_ticket, attachmentResult, hrole, ha, hb, hc, hd, hp, hfn,
      hallow]
  refine ⟨hmain, ?_⟩
  rw [hmain]
  rfl

/-- Witness for C7: the scenario of the spec, an attachment named
malware.exe. -/
theorem create_rejects_disallowed_extension_check :
    create_ticket ⟨1, "staff"⟩ "p" "q" "s" "d" "Urgent" (some "malware.exe")
        0 1 = Except.error ActionError.InvalidAttachment ∧
    persistedAfter none (create_ticket ⟨1, "staff"⟩ "p" "q" "s" "d" "Urgent"
        (some "malware.exe") 0 1) = none :=
  create_rejects_disallowed_extension ⟨1, "staff"⟩ "p" "q" "s" "d" "Urgent"
    "malware.exe" 0 1 rfl (by decide) (by decide) (by decide) (by decide)
    (by decide) (by decide) (by decide)

/-! ## C9 -/

/-- C9: at the create interface, an attachment part with an empty filename is
treated as no attachment (the ticket is stored with a NULL attachment
handle), while a non-empty filename containing no dot is rejected as an
invalid attachment. -/
theorem create_attachment_edge_cases (p : Principal)
    (a b c d prio fn : String) (now : Int) (tid : Nat)
    (hrole : p.role = "staff")
    (ha : a ≠ "") (hb : b ≠ "") (hc : c ≠ "") (hd : d ≠ "") (hp : prio ≠ "") :
    (create_ticket p a b c d prio (some "") now tid).map
        Ticket.attachment_filename = Except.ok none ∧
    (fn ≠ "" → fn.toList.contains '.' = false →
      create_ticket p a b c d prio (some fn) now tid =
        Except.error ActionError.InvalidAttachment) := by
  constructor
  · simp [create_ticket, attachmentResult, hrole, ha, hb, hc, hd, hp,
      Except.map]
  · intro hfn hdot
    have hallow : allowed_file fn = false := by
      unfold allowed_file
      rw [hdot, Bool.false_and]
    simp [create_ticket, attachmentResult, hrole, ha, hb, hc, hd, hp, hfn,
      hallow]

/-- Witness for C9: the empty filename stores NULL; the dotless name README
is rejected. -/
theorem create_attachment_edge_cases_check :
    (create_ticket ⟨1, "staff"⟩ "p" "q" "s" "d" "Urgent" (some "") 0 1).map
        Ticket.attachment_filename = Except.ok none ∧
    create_ticket ⟨1, "staff"⟩ "p" "q" "s" "d" "Urgent" (some "README") 0 1 =
      Except.error ActionError.InvalidAttachment := by
  have h := create_attachment_edge_cases ⟨1, "staff"⟩ "p" "q" "s" "d"
    "Urgent" "README" 0 1 rfl (by decide) (by decide) (by decide) (by decide)
    (by decide)
  exact ⟨h.1, h.2 (by decide) (by decide)⟩

/-! ## C1 -/

/-- C1 as stated is false on the code: the reopen path's `calculate_due_time`
has an explicit "15 Days" branch (app.py lines 68-69), so reopening a Closed
"15 Days" ticket at time 0 yields due_time 15 days, not the claimed 7. -/
theorem reopen_fifteen_days_cex :
    (staff_action ⟨1, "staff"⟩
        (some { baseTicket with priority := "15 Days", status := "Closed" })
        "reopen" 0).map Ticket.due_time = Except.ok (daysSec 15) ∧
    daysSec 15 ≠ (0 : Int) + daysSec 7 := by
  exact ⟨rfl, by decide⟩

lemma calculate_due_time_eq_specAltOffset (prio : String) (now : Int) :
    calculate_due_time prio now = now + specAltOffset prio := by
  unfold calculate_due_time specAltOffset
  split_ifs <;> rfl

/-- C1 amended: a reopen by the owning staff principal on a Solved or Closed
ticket recomputes due_time from priority by the alternate offset table
Urgent to 2 hours, "7 Days" to 7 days, "15 Days" to 15 days, and anything
else to 7 days; in particular a Closed "15 Days" ticket reopened at T gets
due_time T + 15 days. -/
theorem reopen_due_time_alternate_table (p : Principal) (t : Ticket)
    (now : Int) (hrole : p.role = "staff") (hown : t.staff_id = p.id)
    (hstatus : t.status = "Solved" ∨ t.status = "Closed") :
    (staff_action p (some t) "reopen" now).map Ticket.due_time =
      Except.ok (now + specAltOffset t.priority) := by
  have hmem : t.status ∈ (["Solved", "Closed"] : List String) := by
    rcases hstatus with h | h <;> simp [h]
  have hnotclose : ¬("reopen" = "approve_close") := by decide
  simp [staff_action, hrole, hown, hmem, hnotclose, Except.map,
    calculate_due_time_eq_specAltOffset]

/-- Witness for C1 amended: the concrete Closed "15 Days" reopen at time 0. -/
theorem reopen_due_time_alternate_table_check :
    (staff_action ⟨1, "staff"⟩
        (some { baseTicket with priority := "15 Days", status := "Closed" })
        "reopen" 0).map Ticket.due_time =
      Except.ok ((0 : Int) + specAltOffset
        ({ baseTicket with priority := "15 Days", status := "Closed" } :
          Ticket).priority) :=
  reopen_due_time_alternate_table ⟨1, "staff"⟩
    { baseTicket with priority := "15 Days", status := "Closed" } 0 rfl rfl
    (Or.inr rfl)

/-! ## C2 -/

/-- C2 as stated is false on the code: `add_comment` performs no ownership
check, so a staff principal (id 2) distinct from the ticket owner (id 1)
successfully creates a comment instead of failing NotAuthorized. -/
theorem foreign_staff_comment_cex :
    add_comment ⟨2, "staff"⟩ (some baseTicket) "hello" 5 =
      Except.ok { ticket_id := 1
                  user_id := 2
                  message := "hello"
                  created_at := 5 } ∧
    add_comment ⟨2, "staff"⟩ (some baseTicket) "hello" 5 ≠
      Except.error ActionError.NotAuthorized := by
  have h : add_comment ⟨2, "staff"⟩ (some baseTicket) "hello" 5 =
      Except.ok { ticket_id := 1
                  user_id := 2
                  message := "hello"
                  created_at := 5 } := rfl
  exact ⟨h, fun hcon => Except.noConfusion (h.symm.trans hcon)⟩

/-- C2 amended: a staff principal whose id differs from the ticket's
staff_id cannot view the ticket (NotAuthorized), but adding a comment is
not ownership-checked: it succeeds and creates the comment record whenever
the trimmed message is non-empty. -/
theorem foreign_staff_view_blocked_comment_allowed (p : Principal)
    (t : Ticket) (m : String) (now : Int)
    (hrole : p.role = "staff") (hneq : t.staff_id ≠ p.id) :
    view_ticket p (some t) = Except.error ActionError.NotAuthorized ∧
    (pyStrip m ≠ "" →
      add_comment p (some t) m now =
        Except.ok { ticket_id := t.id
                    user_id := p.id
                    message := pyStrip m
                    created_at := now }) := by
  constructor
  · simp [view_ticket, hrole, hneq]
  · intro hm
    simp [add_comment, hm]

/-- Witness for C2 amended: foreign staff id 2 against the id-1 owner. -/
theorem foreign_staff_view_blocked_comment_allowed_check :
    view_ticket ⟨2, "staff"⟩ (some baseTicket) =
      Except.error ActionError.NotAuthorized ∧
    add_comment ⟨2, "staff"⟩ (some baseTicket) " hi " 5 =
      Except.ok { ticket_id := baseTicket.id
                  user_id := 2
                  message := pyStrip " hi "
                  created_at := 5 } := by
  have h := foreign_staff_view_blocked_comment_allowed ⟨2, "staff"⟩
    baseTicket " hi " 5 rfl (by decide)
  exact ⟨h.1, h.2 (by decide)⟩

/-! ## C4 -/

/-- C4: under the owning staff principal, approve_close succeeds exactly
from {Open, In Progress, Solved} and sets the status to Closed, reopen
succeeds exactly from {Solved, Closed} and sets the status to In Progress,
and every other action-status pair fails with InvalidAction and leaves the
stored ticket, in particular its status and due_time, unchanged. -/
theorem staff_action_state_machine (p : Principal) (t : Ticket) (a : String)
    (now : Int) (hrole : p.role = "staff") (hown : t.staff_id = p.id) :
    (a = "approve_close" →
      t.status ∈ (["Solved", "In Progress", "Open"] : List String) →
      staff_action p (some t) a now =
        Except.ok { t with status := "Closed", updated_at := now }) ∧
    (a = "reopen" → t.status ∈ (["Solved", "Closed"] : List String) →
      staff_action p (some t) a now =
        Except.ok { t with
          status := "In Progress"
          due_time := calculate_due_time t.priority now
          updated_at := now }) ∧
    (¬(a = "approve_close" ∧
        t.status ∈ (["Solved", "In Progress", "Open"] : List String)) →
     ¬(a = "reopen" ∧ t.status ∈ (["Solved", "Closed"] : List String)) →
      staff_action p (some t) a now = Except.error ActionError.InvalidAction ∧
      persistedAfter (some t) (staff_action p (some t) a now) = some t) := by
  refine ⟨?_, ?_, ?_⟩
  · intro ha hs
    subst ha
    simp [staff_action, hrole, hown, hs]
  · intro ha hs
    subst ha
    have hnc : ¬("reopen" = "approve_close") := by decide
    simp [staff_action, hrole, hown, hs, hnc]
  · intro h1 h2
    have hres : staff_action p (some t) a now =
        Except.error ActionError.InvalidAction := by
      simp only [staff_action]
      rw [if_neg (by simp [hrole, hown]), if_neg h1, if_neg h2]
    refine ⟨hres, ?_⟩
    rw [hres]
    rfl

/-- Witness for C4: a concrete close from Open, reopen from Closed, and a
rejected approve_close from Closed. -/
theorem staff_action_state_machine_check :
    staff_action ⟨1, "staff"⟩ (some baseTicket) "approve_close" 5 =
      Except.ok { baseTicket with status := "Closed", updated_at := 5 } ∧
    staff_action ⟨1, "staff"⟩ (some { baseTicket with status := "Closed" })
        "reopen" 5 =
      Except.ok { ({ baseTicket with status := "Closed" } : Ticket) with
        status := "In Progress"
        due_time := calculate_due_time baseTicket.priority 5
        updated_at := 5 } ∧
    staff_action ⟨1, "staff"⟩ (some { baseTicket with status := "Closed" })
        "approve_close" 5 = Except.error ActionError.InvalidAction := by
  refine ⟨(staff_action_state_machine ⟨1, "staff"⟩ baseTicket
      "approve_close" 5 rfl rfl).1 rfl (by decide),
    (staff_action_state_machine ⟨1, "staff"⟩
      { baseTicket with status := "Closed" } "reopen" 5 rfl rfl).2.1 rfl
      (by decide),
    ((staff_action_state_machine ⟨1, "staff"⟩
      { baseTicket with status := "Closed" } "approve_close" 5 rfl rfl).2.2
      (by decide) (by decide)).1⟩

/-! ## C5 -/

/-- C5: admin_update_status fails NotAuthorized for every non-admin
principal before anything else, fails NotFound for an admin when the ticket
id does not exist, fails InvalidStatus for an admin on an existing ticket
when the submitted status is outside {Open, In Progress, Solved}, and every
failure leaves the persisted ticket unchanged. -/
theorem admin_update_status_guards (p : Principal) (found : Option Ticket)
    (s : String) (now : Int) :
    (p.role ≠ "admin" →
      admin_update_status p found s now =
        Except.error ActionError.NotAuthorized) ∧
    (p.role = "admin" → found = none →
      admin_update_status p found s now =
        Except.error ActionError.NotFound) ∧
    (p.role = "admin" → ∀ t, found = some t →
      s ∉ (["Open", "In Progress", "Solved"] : List String) →
      admin_update_status p found s now =
        Except.error ActionError.InvalidStatus) ∧
    (∀ e, admin_update_status p found s now = Except.error e →
      persistedAfter found (admin_update_status p found s now) = found) := by
  refine ⟨?_, ?_, ?_, ?_⟩
  · intro h
    simp [admin_update_status, h]
  · intro h hf
    subst hf
    simp [admin_update_status, h]
  · intro h t hf hs
    subst hf
    simp [admin_update_status, h, hs]
  · intro e he
    rw [he]
    rfl

/-- Witness for C5: a staff principal rejected, an admin on a missing id,
an admin submitting the disallowed value Closed, and the untouched row. -/
theorem admin_update_status_guards_check :
    admin_update_status ⟨1, "staff"⟩ (some baseTicket) "Solved" 5 =
      Except.error ActionError.NotAuthorized ∧
    admin_update_status ⟨3, "admin"⟩ none "Solved" 5 =
      Except.error ActionError.NotFound ∧
    admin_update_status ⟨3, "admin"⟩ (some baseTicket) "Closed" 5 =
      Except.error ActionError.InvalidStatus ∧
    persistedAfter (some baseTicket)
        (admin_update_status ⟨1, "staff"⟩ (some baseTicket) "Solved" 5) =
      some baseTicket := by
  refine ⟨(admin_update_status_guards ⟨1, "staff"⟩ (some baseTicket)
      "Solved" 5).1 (by decide),
    (admin_update_status_guards ⟨3, "admin"⟩ none "Solved" 5).2.1 rfl rfl,
    (admin_update_status_guards ⟨3, "admin"⟩ (some baseTicket) "Closed"
      5).2.2.1 rfl baseTicket rfl (by decide),
    (admin_update_status_guards ⟨1, "staff"⟩ (some baseTicket) "Solved"
      5).2.2.2 ActionError.NotAuthorized
      ((admin_update_status_guards ⟨1, "staff"⟩ (some baseTicket) "Solved"
        5).1 (by decide))⟩

/-! ## C6 -/

/-- C6 as stated is false on the code: the reminder scheduler does not use
the dashboards' classification.  At due_time equal to now, an Open ticket
is selected by the scheduler (non-strict comparison) while the spec's
classification, which the dashboards use, says it is not overdue (strict
comparison). -/
theorem scheduler_vs_spec_overdue_cex :
    schedulerSelects { baseTicket with due_time := 0 } 0 = true ∧
    specOverdue { baseTicket with due_time := 0 } 0 = false := by
  exact ⟨rfl, rfl⟩

/-- C6 amended: the two dashboards use exactly the claimed classification,
status outside {Closed, Approved} case-insensitively and due_time strictly
before now; the reminder scheduler instead selects tickets whose status is
exactly one of Open, In Progress, Solved and whose due_time is at most now
(and it takes now in UTC while due_time is stored as local PKT time). -/
theorem overdue_dashboard_vs_scheduler (t : Ticket) (now : Int) :
    dashboardOverdue t now = specOverdue t now ∧
    (schedulerSelects t now = true ↔
      (t.status = "Open" ∨ t.status = "In Progress" ∨ t.status = "Solved") ∧
        t.due_time ≤ now) := by
  constructor
  · unfold dashboardOverdue specOverdue
    exact Bool.and_comm _ _
  · simp [schedulerSelects]

/-- Witness for C6 amended, at a concrete ticket and instant. -/
theorem overdue_dashboard_vs_scheduler_check :
    (dashboardOverdue baseTicket 0 = specOverdue baseTicket 0) ∧
    (schedulerSelects baseTicket 0 = true ↔
      (baseTicket.status = "Open" ∨ baseTicket.status = "In Progress" ∨
        baseTicket.status = "Solved") ∧ baseTicket.due_time ≤ 0) :=
  overdue_dashboard_vs_scheduler baseTicket 0

/-! ## C10 -/

lemma pyStrip_all_space (s : String) (h : s.toList.all pyIsSpace = true) :
    pyStrip s = "" := by
  unfold pyStrip
  have h1 : s.toList.dropWhile pyIsSpace = [] :=
    List.dropWhile_eq_nil_iff.mpr (List.all_eq_true.mp h)
  rw [h1]
  rfl

/-- C10: an admin's assignment update stores the submitted string trimmed of
surrounding whitespace with no non-emptiness validation, so an
all-whitespace submission stores the empty string (clearing any previous
assignee), and the returned row differs from the old one only in
assigned_to and updated_at. -/
theorem admin_assign_stores_trimmed (p : Principal) (t : Ticket)
    (raw : String) (now : Int) (hrole : p.role = "admin") :
    admin_update_assigned p (some t) raw now =
      Except.ok { t with assigned_to := pyStrip raw, updated_at := now } ∧
    (raw.toList.all pyIsSpace = true →
      admin_update_assigned p (some t) raw now =
        Except.ok { t with assigned_to := "", updated_at := now }) := by
  have hmain : admin_update_assigned p (some t) raw now =
      Except.ok { t with assigned_to := pyStrip raw, updated_at := now } := by
    simp [admin_update_assigned, hrole]
  refine ⟨hmain, fun hb => ?_⟩
  rw [hmain, pyStrip_all_space raw hb]

/-- Witness for C10: a blank submission clears a previous assignee. -/
theorem admin_assign_stores_trimmed_check :
    admin_update_assigned ⟨3, "admin"⟩
        (some { baseTicket with assigned_to := "bob" }) "  " 5 =
      Except.ok { ({ baseTicket with assigned_to := "bob" } : Ticket) with
        assigned_to := "", updated_at := 5 } :=
  (admin_assign_stores_trimmed ⟨3, "admin"⟩
    { baseTicket with assigned_to := "bob" } "  " 5 rfl).2 (by decide)

end TicketingSystem
